import Mathlib

/-!
# Verification of the PulseDemo face-gesture AR demo (`src/main.js`)

Shallow embedding of the per-frame logic of the demo: blendshape-driven
gesture detection (`handleBlendshapes`), the accelerate/decelerate speed
ramp and building-recycling of `updateBackground`, the speedometer
display, the camera-acquisition error path, and the one-shot click
listener.  Numeric values (blendshape scores, speeds, positions) are
modelled as rationals; `Math.random()` draws are modelled by an oracle
supplying, per building index, the random values the code would draw.
-/

namespace PulseDemo

/-- `const COLORS = { normal: 0x00ff00, alert: 0xff0000 }` (main.js line 27). -/
structure Colors where
  normal : Nat
  alert : Nat
deriving DecidableEq

def COLORS : Colors := { normal := 0x00ff00, alert := 0xff0000 }

/-- `const MOUTH_THRESHOLD = 0.5` (line 28). -/
def MOUTH_THRESHOLD : ℚ := 0.5

/-- `const MAX_SPEED = 0.5` (line 31). -/
def MAX_SPEED : ℚ := 0.5

/-- `const ACCEL = 0.002` (line 32). -/
def ACCEL : ℚ := 0.002

/-- `const DECEL = 0.001` (line 33). -/
def DECEL : ℚ := 0.001

/-- One entry of the blendshape output of the face tracker: a named
category with a score (glossary: a numeric estimate of facial muscle
activation). -/
structure Category where
  categoryName : String
  score : ℚ
deriving DecidableEq

/-- The blendshape estimate handed to `handleBlendshapes`: a list of
categories. -/
structure Blendshapes where
  categories : List Category
deriving DecidableEq

/-- JavaScript `x.toFixed(0)` for finite `x`, as an integer: the integer
closest to `x`, ties resolved to the larger integer (ECMA-262), i.e.
round half up. -/
def jsToFixed0 (q : ℚ) : Int := ⌊q + 1/2⌋

/-- JavaScript `Math.round`: round half toward positive infinity. -/
def jsRound (q : ℚ) : Int := ⌊q + 1/2⌋

/-- The `Funnel ..%, Pucker ..%` part of the status message built at
lines 119-125: percentages rendered with `(· * 100).toFixed(0)`. -/
def pctText (f p : ℚ) : String :=
  "Funnel " ++ toString (jsToFixed0 (f * 100)) ++ "%, Pucker " ++
    toString (jsToFixed0 (p * 100)) ++ "%"

/-- The observable result of one `handleBlendshapes` call (lines
106-127): the returned boolean, the hex color written to the cube
material, and the status text written to `#status`. -/
structure HandleResult where
  blowing : Bool
  cubeColor : Nat
  statusText : String
deriving DecidableEq

/-- `handleBlendshapes` (lines 106-127).  `find` is `List.find?`;
`funnel?.score || 0` yields the found score, or `0` when the category is
absent (a present score of `0` also yields `0`, which coincides). -/
def handleBlendshapes (blendshapes : Blendshapes) : HandleResult :=
  let funnel := blendshapes.categories.find? (fun c => c.categoryName == "mouthFunnel")
  let pucker := blendshapes.categories.find? (fun c => c.categoryName == "mouthPucker")
  let f := (funnel.map Category.score).getD 0
  let p := (pucker.map Category.score).getD 0
  let blowing : Bool := decide (f > MOUTH_THRESHOLD) || decide (p > MOUTH_THRESHOLD)
  { blowing := blowing
    cubeColor := if blowing then COLORS.alert else COLORS.normal
    statusText :=
      if blowing then "🚀 MOVING! " ++ pctText f p else pctText f p }

/-- Spec side: "each score is the one attached to the category of that
name in the input" — the score of the (first) category named `name`,
`0` when no such category exists. -/
def scoreOf (blendshapes : Blendshapes) (name : String) : ℚ :=
  ((blendshapes.categories.find? (fun c => c.categoryName == name)).map
    Category.score).getD 0

/-- Spec side: the blowing gesture is detected iff the mouthFunnel score
or the mouthPucker score exceeds the threshold 0.5 (strict). -/
def specBlowing (blendshapes : Blendshapes) : Prop :=
  scoreOf blendshapes "mouthFunnel" > MOUTH_THRESHOLD ∨
    scoreOf blendshapes "mouthPucker" > MOUTH_THRESHOLD

instance (blendshapes : Blendshapes) : Decidable (specBlowing blendshapes) := by
  unfold specBlowing; infer_instance

/-- One background building: x position, z position (relative to the
group), and y scale.  Created at lines 59-77, recycled at lines 88-95. -/
structure Building where
  x : ℚ
  z : ℚ
  scaleY : ℚ
deriving DecidableEq

/-- A freshly randomized building placed at depth `z`: given the three
`Math.random()` draws `(r0, r1, r2)`, the side is `r0 > 0.5 ? 1 : -1`,
`x = side * (3.5 + r1 * 1.5)` and `scale.y = 1 + r2 * 1.5` (lines 69-72
and 91-93 use the same formulas). -/
def mkBuilding (r : ℚ × ℚ × ℚ) (z : ℚ) : Building :=
  { x := (if r.1 > 1/2 then (1 : ℚ) else -1) * (7/2 + r.2.1 * (3/2))
    z := z
    scaleY := 1 + r.2.2 * (3/2) }

/-- `createBackground` (lines 59-77): 20 buildings at `z = -2 - i * 2`,
with per-building random x and y scale drawn from the oracle `rand`. -/
def createBackground (rand : Nat → ℚ × ℚ × ℚ) : List Building :=
  (List.range 20).map (fun i => mkBuilding (rand i) (-2 - 2 * (i : ℚ)))

/-- The module-level background state: `backgroundSpeed`, `targetSpeed`
(lines 29-30), the group z offset (`backgroundGroup.position.z`) and the
`buildings` array. -/
structure BgState where
  backgroundSpeed : ℚ
  targetSpeed : ℚ
  groupZ : ℚ
  buildings : List Building
deriving DecidableEq

/-- The state after `setup`: speeds 0, group at the origin, 20 fresh
buildings. -/
def initBgState (rand : Nat → ℚ × ℚ × ℚ) : BgState :=
  { backgroundSpeed := 0, targetSpeed := 0, groupZ := 0
    buildings := createBackground rand }

/-- The speed update of `updateBackground` (lines 80-84):
`target = isBlowing ? MAX_SPEED : 0`, then
`speed < target ? min(speed + ACCEL, target) : max(speed - DECEL, target)`. -/
def stepSpeed (isBlowing : Bool) (s : ℚ) : ℚ :=
  let target : ℚ := if isBlowing then MAX_SPEED else 0
  if s < target then min (s + ACCEL) target else max (s - DECEL) target

/-- The body of the `buildings.forEach` at lines 88-95: a building whose
world z (`b.position.z + backgroundGroup.position.z`) exceeds 2 has its z
decreased by 40 and its x and y scale re-randomized; others are left
unchanged. -/
def recycleOne (r : ℚ × ℚ × ℚ) (gz : ℚ) (b : Building) : Building :=
  if b.z + gz > 2 then mkBuilding r (b.z - 40) else b

/-- The `forEach` over the buildings list, threading the building index
into the randomness oracle. -/
def recycleAll (rand : Nat → ℚ × ℚ × ℚ) (gz : ℚ) : Nat → List Building → List Building
  | _, [] => []
  | i, b :: rest => recycleOne (rand i) gz b :: recycleAll rand gz (i + 1) rest

/-- `updateBackground` (lines 79-104), state part: update the target and
smoothed speed, advance the group z by the new speed, recycle the
out-of-view buildings.  (The speedometer display it also writes is
modelled by `speedometerView` below.) -/
def updateBackground (isBlowing : Bool) (rand : Nat → ℚ × ℚ × ℚ) (st : BgState) : BgState :=
  let target : ℚ := if isBlowing then MAX_SPEED else 0
  let speed := stepSpeed isBlowing st.backgroundSpeed
  let gz := st.groupZ + speed
  { backgroundSpeed := speed
    targetSpeed := target
    groupZ := gz
    buildings := recycleAll rand gz 0 st.buildings }

/-- A whole run: fold `updateBackground` over a finite sequence of
per-frame inputs (the blowing boolean and that frame's random draws). -/
def runFrames (frames : List (Bool × (Nat → ℚ × ℚ × ℚ))) (st : BgState) : BgState :=
  frames.foldl (fun s fr => updateBackground fr.1 fr.2 s) st

/-- The percentage shown by the speedometer (line 99):
`Math.round((backgroundSpeed / MAX_SPEED) * 100)`. -/
def speedPct (speed : ℚ) : Int := jsRound (speed / MAX_SPEED * 100)

/-- The speedometer display written at lines 97-103 when the
`#speedometer` element exists: its text and its CSS color. -/
def speedometerView (speed : ℚ) : String × String :=
  let pct := speedPct speed
  ("Speed: " ++ toString pct ++ "%",
   if pct > 70 then "#ff4444" else if pct > 30 then "#ffaa44" else "#44ff44")

/-- The side effects the camera-start path can perform, in order of
occurrence: status writes (`updateStatus`), console error logs, the
`getUserMedia` camera request, `videoEl.play()`, `mindarThree.start`,
and `renderer.setAnimationLoop` registration. -/
inductive Effect where
  | statusWrite (msg : String)
  | consoleError (label : String) (errMessage : String)
  | cameraRequest
  | videoPlay
  | trackerStart
  | loopRegistered
deriving DecidableEq, BEq

/-- A JavaScript error value, by its `message`. -/
structure Err where
  message : String
deriving DecidableEq

/-- `getConstrainedCameraStream` (lines 41-57): one `getUserMedia` call
whose outcome is the environment-supplied `camResult`; on failure the
error is logged (`console.error("Camera init failed:", err)`), the
status is set to `"Camera access denied: " + err.message`, and the error
is rethrown.  Returns the effects performed and the outcome. -/
def getConstrainedCameraStream {σ : Type} (camResult : Except Err σ) :
    List Effect × Except Err σ :=
  match camResult with
  | .ok s => ([.cameraRequest], .ok s)
  | .error e =>
      ([.cameraRequest, .consoleError "Camera init failed:" e.message,
        .statusWrite ("Camera access denied: " ++ e.message)], .error e)

/-- The body of the `enable` click handler (lines 179-206) after the
listener removal: status write, camera acquisition, then (only on
success) video play, tracker start, the tracking status write, and the
animation-loop registration.  There is no surrounding try/catch, so a
camera failure aborts the rest of the sequence with the rethrown
error. -/
def enableEff {σ : Type} (camResult : Except Err σ) :
    List Effect × Except Err Unit :=
  let pre := [Effect.statusWrite "Starting camera..."]
  match getConstrainedCameraStream camResult with
  | (camEffs, .error e) => (pre ++ camEffs, .error e)
  | (camEffs, .ok _) =>
      (pre ++ camEffs ++
        [.videoPlay, .trackerStart,
         .statusWrite "Tracking started — blow to move 🚀", .loopRegistered],
       .ok ())

/-- The page's click-dispatch state: whether the one-shot `enable`
listener is still attached to `document.body`, and how many times the
camera-start sequence has run. -/
structure PageState where
  listenerAttached : Bool
  enableInvocations : Nat
deriving DecidableEq

/-- The state after `start()` returns (line 208): listener attached,
`enable` never run. -/
def initPage : PageState := { listenerAttached := true, enableInvocations := 0 }

/-- Dispatch of one click on `document.body`: if the listener is still
attached, `enable` runs; its first statement (line 180) removes the
listener, then the camera-start sequence runs once.  If the listener was
already removed, the click does nothing. -/
def clickOnce (st : PageState) : PageState :=
  if st.listenerAttached then
    { listenerAttached := false, enableInvocations := st.enableInvocations + 1 }
  else st

end PulseDemo

namespace PulseDemo

lemma handleBlendshapes_blowing (bs : Blendshapes) :
    (handleBlendshapes bs).blowing =
      (decide (scoreOf bs "mouthFunnel" > MOUTH_THRESHOLD) ||
        decide (scoreOf bs "mouthPucker" > MOUTH_THRESHOLD)) := rfl

lemma handleBlendshapes_cubeColor (bs : Blendshapes) :
    (handleBlendshapes bs).cubeColor =
      if (handleBlendshapes bs).blowing then COLORS.alert else COLORS.normal := rfl

lemma handleBlendshapes_statusText (bs : Blendshapes) :
    (handleBlendshapes bs).statusText =
      if (handleBlendshapes bs).blowing
      then "🚀 MOVING! " ++ pctText (scoreOf bs "mouthFunnel") (scoreOf bs "mouthPucker")
      else pctText (scoreOf bs "mouthFunnel") (scoreOf bs "mouthPucker") := rfl

/-- C1: `handleBlendshapes` reports the blowing gesture as detected
(returns `true`) iff the mouthFunnel score or the mouthPucker score —
the score attached to the category of that name, `0` when absent —
strictly exceeds the threshold `MOUTH_THRESHOLD = 0.5`. -/
theorem C1_blowing_iff_scores_exceed_threshold (bs : Blendshapes) :
    (handleBlendshapes bs).blowing = true ↔ specBlowing bs := by
  rw [handleBlendshapes_blowing]
  simp [specBlowing]

/-- C2: one `updateBackground` call sets the target speed to
`MAX_SPEED` when blowing and to `0` otherwise, and moves the smoothed
speed by the linear ramp: below the target it becomes
`min (s + ACCEL) target`, otherwise `max (s - DECEL) target`. -/
theorem C2_speed_ramp (isBlowing : Bool) (rand : Nat → ℚ × ℚ × ℚ) (st : BgState)
    (h0 : 0 ≤ st.backgroundSpeed) (h1 : st.backgroundSpeed ≤ MAX_SPEED) :
    (updateBackground isBlowing rand st).targetSpeed =
      (if isBlowing then MAX_SPEED else 0) ∧
    (updateBackground isBlowing rand st).backgroundSpeed =
      (if st.backgroundSpeed < (if isBlowing then MAX_SPEED else 0)
       then min (st.backgroundSpeed + ACCEL) (if isBlowing then MAX_SPEED else 0)
       else max (st.backgroundSpeed - DECEL) (if isBlowing then MAX_SPEED else 0)) :=
  ⟨rfl, rfl⟩

/-- C2 witness: the theorem instantiated at speed 0 with blowing true:
the speed ramps up to `min (0 + ACCEL) MAX_SPEED`. -/
theorem C2_speed_ramp_witness :
    (0 : ℚ) ≤ (initBgState (fun _ => (0, 0, 0))).backgroundSpeed ∧
    (initBgState (fun _ => (0, 0, 0))).backgroundSpeed ≤ MAX_SPEED ∧
    ((updateBackground true (fun _ => (0, 0, 0)) (initBgState (fun _ => (0, 0, 0)))).targetSpeed =
        (if true then MAX_SPEED else 0) ∧
      (updateBackground true (fun _ => (0, 0, 0)) (initBgState (fun _ => (0, 0, 0)))).backgroundSpeed =
        (if (initBgState (fun _ => (0, 0, 0))).backgroundSpeed < (if true then MAX_SPEED else 0)
         then min ((initBgState (fun _ => (0, 0, 0))).backgroundSpeed + ACCEL)
            (if true then MAX_SPEED else 0)
         else max ((initBgState (fun _ => (0, 0, 0))).backgroundSpeed - DECEL)
            (if true then MAX_SPEED else 0))) :=
  ⟨le_refl 0, by norm_num [initBgState, MAX_SPEED],
    C2_speed_ramp true (fun _ => (0, 0, 0)) (initBgState (fun _ => (0, 0, 0)))
      (le_refl 0) (by norm_num [initBgState, MAX_SPEED])⟩

/-- C5: `handleBlendshapes` sets the cube color to the alert color
`0xff0000` exactly when the blowing gesture is detected and to the
normal color `0x00ff00` otherwise, and writes a status text showing the
funnel and pucker percentages, prefixed with the `🚀 MOVING! ` marker
exactly when blowing. -/
theorem C5_color_and_status (bs : Blendshapes) :
    ((handleBlendshapes bs).cubeColor = COLORS.alert ↔
      (handleBlendshapes bs).blowing = true) ∧
    ((handleBlendshapes bs).cubeColor = COLORS.normal ↔
      (handleBlendshapes bs).blowing = false) ∧
    (handleBlendshapes bs).statusText =
      (if (handleBlendshapes bs).blowing then "🚀 MOVING! " else "") ++
        pctText (scoreOf bs "mouthFunnel") (scoreOf bs "mouthPucker") := by
  have hne : COLORS.alert ≠ COLORS.normal := by decide
  rw [handleBlendshapes_cubeColor, handleBlendshapes_statusText]
  cases hb : (handleBlendshapes bs).blowing <;>
    simp [hb, hne, Ne.symm hne]

lemma scoreOf_eq_zero_of_absent (bs : Blendshapes) (name : String)
    (h : ∀ c ∈ bs.categories, c.categoryName ≠ name) :
    scoreOf bs name = 0 := by
  have hfind : bs.categories.find? (fun c => c.categoryName == name) = none := by
    rw [List.find?_eq_none]
    intro c hc
    simpa using h c hc
  rw [scoreOf, hfind]
  rfl

lemma zero_not_gt_threshold : ¬ ((0 : ℚ) > MOUTH_THRESHOLD) := by
  norm_num [MOUTH_THRESHOLD]

/-- C10: a missing mouth category never makes `handleBlendshapes` fail;
its score is treated as `0`.  If the input has no `mouthFunnel`
category, that score is `0` and detection depends only on the
`mouthPucker` score (and symmetrically when `mouthPucker` is absent);
in particular when both categories are absent the blowing gesture is
not detected and the cube is set to the normal color. -/
theorem C10_missing_categories_default_zero (bs : Blendshapes) :
    ((∀ c ∈ bs.categories, c.categoryName ≠ "mouthFunnel") →
      scoreOf bs "mouthFunnel" = 0 ∧
      ((handleBlendshapes bs).blowing = true ↔
        scoreOf bs "mouthPucker" > MOUTH_THRESHOLD)) ∧
    ((∀ c ∈ bs.categories, c.categoryName ≠ "mouthPucker") →
      scoreOf bs "mouthPucker" = 0 ∧
      ((handleBlendshapes bs).blowing = true ↔
        scoreOf bs "mouthFunnel" > MOUTH_THRESHOLD)) ∧
    ((∀ c ∈ bs.categories, c.categoryName ≠ "mouthFunnel") →
      (∀ c ∈ bs.categories, c.categoryName ≠ "mouthPucker") →
      (handleBlendshapes bs).blowing = false ∧
      (handleBlendshapes bs).cubeColor = COLORS.normal) := by
  refine ⟨?_, ?_, ?_⟩
  · intro hf
    have hf0 := scoreOf_eq_zero_of_absent bs "mouthFunnel" hf
    refine ⟨hf0, ?_⟩
    rw [handleBlendshapes_blowing, hf0]
    simp [zero_not_gt_threshold]
  · intro hp
    have hp0 := scoreOf_eq_zero_of_absent bs "mouthPucker" hp
    refine ⟨hp0, ?_⟩
    rw [handleBlendshapes_blowing, hp0]
    simp [zero_not_gt_threshold]
  · intro hf hp
    have hf0 := scoreOf_eq_zero_of_absent bs "mouthFunnel" hf
    have hp0 := scoreOf_eq_zero_of_absent bs "mouthPucker" hp
    have hblow : (handleBlendshapes bs).blowing = false := by
      rw [handleBlendshapes_blowing, hf0, hp0]
      simp [zero_not_gt_threshold]
    refine ⟨hblow, ?_⟩
    rw [handleBlendshapes_cubeColor, hblow]
    rfl

/-- C10 witness: an input holding only a `mouthPucker` category at score
0.6 (so `mouthFunnel` is absent) is handled without failing: the funnel
score defaults to 0 and the gesture is still detected from the pucker
score alone; an input holding only `jawOpen` has both mouth categories
absent, so no gesture is detected and the cube stays green. -/
theorem C10_witness :
    (∀ c ∈ (Blendshapes.mk [⟨"mouthPucker", 6/10⟩]).categories,
      c.categoryName ≠ "mouthFunnel") ∧
    (scoreOf (Blendshapes.mk [⟨"mouthPucker", 6/10⟩]) "mouthFunnel" = 0 ∧
      (handleBlendshapes (Blendshapes.mk [⟨"mouthPucker", 6/10⟩])).blowing = true) ∧
    (∀ c ∈ (Blendshapes.mk [⟨"jawOpen", 9/10⟩]).categories,
      c.categoryName ≠ "mouthFunnel") ∧
    (∀ c ∈ (Blendshapes.mk [⟨"jawOpen", 9/10⟩]).categories,
      c.categoryName ≠ "mouthPucker") ∧
    ((handleBlendshapes (Blendshapes.mk [⟨"jawOpen", 9/10⟩])).blowing = false ∧
      (handleBlendshapes (Blendshapes.mk [⟨"jawOpen", 9/10⟩])).cubeColor = COLORS.normal) := by
  have h1 := (C10_missing_categories_default_zero
    (Blendshapes.mk [⟨"mouthPucker", 6/10⟩])).1 (by decide)
  have h2 := (C10_missing_categories_default_zero
    (Blendshapes.mk [⟨"jawOpen", 9/10⟩])).2.2 (by decide) (by decide)
  refine ⟨by decide, ⟨h1.1, h1.2.mpr ?_⟩, by decide, by decide, h2⟩
  show scoreOf (Blendshapes.mk [⟨"mouthPucker", 6/10⟩]) "mouthPucker" > MOUTH_THRESHOLD
  have hsc : scoreOf (Blendshapes.mk [⟨"mouthPucker", 6/10⟩]) "mouthPucker" = 6/10 := rfl
  rw [hsc, MOUTH_THRESHOLD]
  norm_num

lemma stepSpeed_bounds (b : Bool) {s : ℚ} (h0 : 0 ≤ s) (h1 : s ≤ MAX_SPEED) :
    0 ≤ stepSpeed b s ∧ stepSpeed b s ≤ MAX_SPEED := by
  have hM0 : (0 : ℚ) ≤ MAX_SPEED := by norm_num [MAX_SPEED]
  have hA : (0 : ℚ) < ACCEL := by norm_num [ACCEL]
  have hD : (0 : ℚ) < DECEL := by norm_num [DECEL]
  unfold stepSpeed
  cases b <;>
    simp only [Bool.false_eq_true, if_false, if_true, min_def, max_def] <;>
    split_ifs <;> constructor <;> linarith

lemma updateBackground_backgroundSpeed (isBlowing : Bool) (rand : Nat → ℚ × ℚ × ℚ)
    (st : BgState) :
    (updateBackground isBlowing rand st).backgroundSpeed =
      stepSpeed isBlowing st.backgroundSpeed := rfl

lemma runFrames_speed_mem :
    ∀ (frames : List (Bool × (Nat → ℚ × ℚ × ℚ))) (st : BgState),
      0 ≤ st.backgroundSpeed → st.backgroundSpeed ≤ MAX_SPEED →
      0 ≤ (runFrames frames st).backgroundSpeed ∧
        (runFrames frames st).backgroundSpeed ≤ MAX_SPEED
  | [], _, h0, h1 => ⟨h0, h1⟩
  | fr :: rest, st, h0, h1 => by
      have hb := stepSpeed_bounds fr.1 h0 h1
      rw [← updateBackground_backgroundSpeed fr.1 fr.2 st] at hb
      exact runFrames_speed_mem rest (updateBackground fr.1 fr.2 st) hb.1 hb.2

/-- C3: starting from the post-setup state (speed 0), after any finite
sequence of `updateBackground` calls with arbitrary blowing inputs and
random draws, the smoothed speed `backgroundSpeed` lies in
`[0, MAX_SPEED]`.  (Quantifying over all finite sequences covers the
state after every intermediate call.) -/
theorem C3_speed_invariant (rand0 : Nat → ℚ × ℚ × ℚ)
    (frames : List (Bool × (Nat → ℚ × ℚ × ℚ))) :
    0 ≤ (runFrames frames (initBgState rand0)).backgroundSpeed ∧
      (runFrames frames (initBgState rand0)).backgroundSpeed ≤ MAX_SPEED :=
  runFrames_speed_mem frames (initBgState rand0)
    (le_refl 0) (by norm_num [initBgState, MAX_SPEED])

lemma recycleAll_length (rand : Nat → ℚ × ℚ × ℚ) (gz : ℚ) :
    ∀ (k : Nat) (bs : List Building),
      (recycleAll rand gz k bs).length = bs.length
  | _, [] => rfl
  | k, _ :: rest => by
      simp [recycleAll, recycleAll_length rand gz (k + 1) rest]

lemma recycleAll_getElem? (rand : Nat → ℚ × ℚ × ℚ) (gz : ℚ) :
    ∀ (k : Nat) (bs : List Building) (i : Nat),
      (recycleAll rand gz k bs)[i]? = (bs[i]?).map (recycleOne (rand (k + i)) gz)
  | _, [], i => by simp [recycleAll]
  | k, b :: rest, 0 => by simp [recycleAll]
  | k, b :: rest, i + 1 => by
      have ih := recycleAll_getElem? rand gz (k + 1) rest i
      simpa [recycleAll, Nat.add_assoc, Nat.add_comm 1 i] using ih

lemma updateBackground_buildings_length (isBlowing : Bool) (rand : Nat → ℚ × ℚ × ℚ)
    (st : BgState) :
    (updateBackground isBlowing rand st).buildings.length = st.buildings.length :=
  recycleAll_length rand _ 0 st.buildings

lemma runFrames_buildings_length :
    ∀ (frames : List (Bool × (Nat → ℚ × ℚ × ℚ))) (st : BgState),
      (runFrames frames st).buildings.length = st.buildings.length
  | [], _ => rfl
  | fr :: rest, st => by
      have ih := runFrames_buildings_length rest (updateBackground fr.1 fr.2 st)
      calc (runFrames (fr :: rest) st).buildings.length
          = (runFrames rest (updateBackground fr.1 fr.2 st)).buildings.length := rfl
        _ = (updateBackground fr.1 fr.2 st).buildings.length := ih
        _ = st.buildings.length := updateBackground_buildings_length fr.1 fr.2 st

/-- C4: in every `updateBackground` call, the building at index `i`
whose world z (its own z plus the updated group offset) exceeds 2 is
replaced by a freshly randomized building at `z - 40`, while a building
at world z ≤ 2 is kept unchanged; the buildings list itself keeps its
length, `createBackground` makes exactly 20 buildings, and every run
from the post-setup state still holds exactly 20. -/
theorem C4_building_recycling (isBlowing : Bool) (rand rand0 : Nat → ℚ × ℚ × ℚ)
    (st : BgState) (frames : List (Bool × (Nat → ℚ × ℚ × ℚ))) :
    (updateBackground isBlowing rand st).buildings.length = st.buildings.length ∧
    (∀ i : Nat,
      (updateBackground isBlowing rand st).buildings[i]? =
        (st.buildings[i]?).map (fun b =>
          if b.z + (updateBackground isBlowing rand st).groupZ > 2
          then mkBuilding (rand i) (b.z - 40)
          else b)) ∧
    (createBackground rand0).length = 20 ∧
    (runFrames frames (initBgState rand0)).buildings.length = 20 := by
  refine ⟨updateBackground_buildings_length isBlowing rand st, ?_, ?_, ?_⟩
  · intro i
    have h := recycleAll_getElem? rand
      (st.groupZ + stepSpeed isBlowing st.backgroundSpeed) 0 st.buildings i
    have hz : (updateBackground isBlowing rand st).groupZ =
        st.groupZ + stepSpeed isBlowing st.backgroundSpeed := rfl
    have hb : (updateBackground isBlowing rand st).buildings =
        recycleAll rand (st.groupZ + stepSpeed isBlowing st.backgroundSpeed)
          0 st.buildings := rfl
    rw [hb, hz, h]
    congr 1
    funext b
    simp [recycleOne]
  · simp [createBackground]
  · rw [runFrames_buildings_length frames (initBgState rand0)]
    simp [initBgState, createBackground]

lemma stepSpeed_false_of_nonneg {s : ℚ} (h0 : 0 ≤ s) :
    stepSpeed false s = max (s - DECEL) 0 := by
  unfold stepSpeed
  simp [not_lt.mpr h0]

lemma stepSpeed_false_iterate :
    ∀ (n : Nat) (s : ℚ), 0 ≤ s →
      (stepSpeed false)^[n] s = max (s - n * DECEL) 0
  | 0, s, h0 => by simpa using max_eq_left h0
  | n + 1, s, h0 => by
      have hD : (0 : ℚ) ≤ DECEL := by norm_num [DECEL]
      rw [Function.iterate_succ_apply, stepSpeed_false_of_nonneg h0,
        stepSpeed_false_iterate n (max (s - DECEL) 0) (le_max_right _ _)]
      rcases le_total 0 (s - DECEL) with hc | hc
      · rw [max_eq_left hc]
        congr 1
        push_cast
        ring
      · rw [max_eq_right hc]
        have h1 : s - (n + 1 : Nat) * DECEL ≤ 0 := by
          push_cast
          nlinarith [(Nat.cast_nonneg n : (0 : ℚ) ≤ (n : ℚ))]
        rw [max_eq_right, max_eq_right h1]
        nlinarith [(Nat.cast_nonneg n : (0 : ℚ) ≤ (n : ℚ))]

/-- C9: from any speed in `[0, MAX_SPEED]`, iterating the
`updateBackground` speed step with blowing false reaches exactly 0
within `MAX_SPEED / DECEL = 500` iterations, and 0 is a fixed point:
once at 0 with blowing false it stays exactly 0 forever. -/
theorem C9_decel_reaches_zero (s : ℚ) (h0 : 0 ≤ s) (h1 : s ≤ MAX_SPEED) :
    (stepSpeed false)^[500] s = 0 ∧
    (∀ n : Nat, (stepSpeed false)^[n] (0 : ℚ) = 0) := by
  constructor
  · rw [stepSpeed_false_iterate 500 s h0]
    have : s - (500 : Nat) * DECEL ≤ 0 := by
      norm_num [DECEL]
      norm_num [MAX_SPEED] at h1
      linarith
    exact max_eq_right this
  · intro n
    rw [stepSpeed_false_iterate n 0 (le_refl 0)]
    have : (0 : ℚ) - n * DECEL ≤ 0 := by
      have := (Nat.cast_nonneg n : (0 : ℚ) ≤ (n : ℚ))
      norm_num [DECEL]
    exact max_eq_right this

/-- C9 witness: the theorem applied at the concrete speed 1/4. -/
theorem C9_decel_reaches_zero_witness :
    (0 : ℚ) ≤ 1/4 ∧ (1/4 : ℚ) ≤ MAX_SPEED ∧
    ((stepSpeed false)^[500] (1/4 : ℚ) = 0 ∧
      (∀ n : Nat, (stepSpeed false)^[n] (0 : ℚ) = 0)) :=
  ⟨by norm_num, by norm_num [MAX_SPEED],
    C9_decel_reaches_zero (1/4) (by norm_num) (by norm_num [MAX_SPEED])⟩

lemma clickOnce_spent : ∀ m : Nat,
    clickOnce^[m] ⟨false, 1⟩ = (⟨false, 1⟩ : PageState)
  | 0 => rfl
  | m + 1 => by
      rw [Function.iterate_succ_apply]
      exact clickOnce_spent m

/-- C7: the `enable` click listener is one-shot: over any number `n` of
clicks from the freshly attached state, the camera-start sequence runs
`min n 1` times — once as soon as one click occurs, and never again on
further clicks, because the listener removes itself on first
invocation. -/
theorem C7_one_shot_listener (n : Nat) :
    (clickOnce^[n] initPage).enableInvocations = min n 1 ∧
    (clickOnce^[n] initPage).listenerAttached = decide (n = 0) := by
  cases n with
  | zero => exact ⟨rfl, rfl⟩
  | succ m =>
      have h1 : clickOnce initPage = (⟨false, 1⟩ : PageState) := rfl
      rw [Function.iterate_succ_apply, h1, clickOnce_spent m]
      simp [Nat.succ_min_succ]

/-- C6: when the camera stream acquisition fails with error `e`, the
`enable` sequence performs exactly one camera request, logs the failure,
ends with the status text `"Camera access denied: " ++ e.message`, and
aborts with the rethrown error before the tracker is started or the
animation loop is registered — there is no retry. -/
theorem C6_camera_failure_surfaced (e : Err) :
    (enableEff (Except.error e : Except Err Unit)).2 = Except.error e ∧
    (enableEff (Except.error e : Except Err Unit)).1.count Effect.cameraRequest = 1 ∧
    (enableEff (Except.error e : Except Err Unit)).1.getLast? =
      some (Effect.statusWrite ("Camera access denied: " ++ e.message)) ∧
    Effect.consoleError "Camera init failed:" e.message ∈
      (enableEff (Except.error e : Except Err Unit)).1 ∧
    Effect.trackerStart ∉ (enableEff (Except.error e : Except Err Unit)).1 ∧
    Effect.loopRegistered ∉ (enableEff (Except.error e : Except Err Unit)).1 := by
  have he : enableEff (Except.error e : Except Err Unit) =
      ([.statusWrite "Starting camera...", .cameraRequest,
        .consoleError "Camera init failed:" e.message,
        .statusWrite ("Camera access denied: " ++ e.message)],
       Except.error e) := rfl
  rw [he]
  refine ⟨rfl, rfl, rfl, ?_, ?_, ?_⟩
  · simp
  · simp
  · simp

lemma stepSpeed_true_iterate :
    ∀ (n : Nat) (s : ℚ), 0 ≤ s → s ≤ MAX_SPEED →
      (stepSpeed true)^[n] s = min (s + n * ACCEL) MAX_SPEED
  | 0, s, _, h1 => by simpa using min_eq_left h1
  | n + 1, s, h0, h1 => by
      have hA : (0 : ℚ) < ACCEL := by norm_num [ACCEL]
      have hD : (0 : ℚ) < DECEL := by norm_num [DECEL]
      have hM0 : (0 : ℚ) ≤ MAX_SPEED := by norm_num [MAX_SPEED]
      have hnA : (0 : ℚ) ≤ (n : ℚ) * ACCEL :=
        mul_nonneg (Nat.cast_nonneg n : (0 : ℚ) ≤ (n : ℚ)) (le_of_lt hA)
      rw [Function.iterate_succ_apply]
      rcases lt_or_ge s MAX_SPEED with hlt | hge
      · have hstep : stepSpeed true s = min (s + ACCEL) MAX_SPEED := by
          unfold stepSpeed
          simp [hlt]
        rw [hstep, stepSpeed_true_iterate n (min (s + ACCEL) MAX_SPEED)
          (le_min (by linarith) hM0) (min_le_right _ _)]
        rcases le_total (s + ACCEL) MAX_SPEED with hc | hc
        · rw [min_eq_left hc]
          congr 1
          push_cast
          ring
        · rw [min_eq_right hc, min_eq_right (by linarith), min_eq_right]
          push_cast
          nlinarith
      · have heq : s = MAX_SPEED := le_antisymm h1 hge
        have hstep : stepSpeed true s = MAX_SPEED := by
          unfold stepSpeed
          rw [if_neg (by simp [heq])]
          simpa [heq] using max_eq_right (by linarith : MAX_SPEED - DECEL ≤ MAX_SPEED)
        rw [hstep, stepSpeed_true_iterate n MAX_SPEED hM0 (le_refl _),
          min_eq_right (by linarith), min_eq_right]
        rw [heq]
        push_cast
        nlinarith

/-- C8 counterexample: the speed `0.498` is reachable from the initial
speed 0 (250 accelerating frames reach `MAX_SPEED`, two decelerating
frames then give `0.498`), and at that speed the speedometer already
shows `Speed: 100%` although the speed is not `MAX_SPEED` — so the
percentage is not 100 "exactly at MAX_SPEED". -/
theorem C8_counterexample :
    stepSpeed false (stepSpeed false ((stepSpeed true)^[250] 0)) = 498/1000 ∧
    speedPct (498/1000) = 100 ∧
    (speedometerView (498/1000)).1 = "Speed: 100%" ∧
    (498/1000 : ℚ) ≠ MAX_SPEED := by
  have h250 : (stepSpeed true)^[250] (0 : ℚ) = MAX_SPEED := by
    rw [stepSpeed_true_iterate 250 0 (le_refl 0) (by norm_num [MAX_SPEED])]
    norm_num [ACCEL, MAX_SPEED]
  have h1 : stepSpeed false (MAX_SPEED : ℚ) = 499/1000 := by
    rw [stepSpeed_false_of_nonneg (by norm_num [MAX_SPEED])]
    norm_num [MAX_SPEED, DECEL]
  have h2 : stepSpeed false (499/1000 : ℚ) = 498/1000 := by
    rw [stepSpeed_false_of_nonneg (by norm_num)]
    norm_num [DECEL]
  refine ⟨by rw [h250, h1, h2], ?_, ?_, by norm_num [MAX_SPEED]⟩
  · have harg : (498/1000 : ℚ) / MAX_SPEED * 100 + 1/2 = 1001/10 := by
      norm_num [MAX_SPEED]
    rw [speedPct, jsRound, harg, Int.floor_eq_iff]
    norm_num
  · have harg : (498/1000 : ℚ) / MAX_SPEED * 100 + 1/2 = 1001/10 := by
      norm_num [MAX_SPEED]
    have hpct : speedPct (498/1000) = 100 := by
      rw [speedPct, jsRound, harg, Int.floor_eq_iff]
      norm_num
    rw [speedometerView]
    simp only [hpct]
    rfl


lemma speedPct_eq_floor {s : ℚ} : speedPct s = ⌊200 * s + 1/2⌋ := by
  have harg : s / MAX_SPEED * 100 + 1/2 = 200 * s + 1/2 := by
    rw [MAX_SPEED]
    norm_num
    ring
  rw [speedPct, jsRound, harg]

/-- C8 (amended): on every `updateBackground` call from a speed in
`[0, MAX_SPEED]`, the speedometer text shows the percentage
`Math.round(speed / MAX_SPEED * 100)` of the new speed; that percentage
is 0 iff the new speed is below `0.0025` and 100 iff it is at least
`0.4975`; the indicator color is `#ff4444` when the percentage exceeds
70, `#ffaa44` when it exceeds 30 but not 70, and `#44ff44` otherwise. -/
theorem C8_speedometer (isBlowing : Bool) (rand : Nat → ℚ × ℚ × ℚ) (st : BgState)
    (h0 : 0 ≤ st.backgroundSpeed) (h1 : st.backgroundSpeed ≤ MAX_SPEED) :
    (speedometerView (updateBackground isBlowing rand st).backgroundSpeed).1 =
      "Speed: " ++
        toString (speedPct (updateBackground isBlowing rand st).backgroundSpeed) ++ "%" ∧
    (speedPct (updateBackground isBlowing rand st).backgroundSpeed = 0 ↔
      (updateBackground isBlowing rand st).backgroundSpeed < 1/400) ∧
    (speedPct (updateBackground isBlowing rand st).backgroundSpeed = 100 ↔
      199/400 ≤ (updateBackground isBlowing rand st).backgroundSpeed) ∧
    (70 < speedPct (updateBackground isBlowing rand st).backgroundSpeed →
      (speedometerView (updateBackground isBlowing rand st).backgroundSpeed).2 = "#ff4444") ∧
    (30 < speedPct (updateBackground isBlowing rand st).backgroundSpeed ∧
        speedPct (updateBackground isBlowing rand st).backgroundSpeed ≤ 70 →
      (speedometerView (updateBackground isBlowing rand st).backgroundSpeed).2 = "#ffaa44") ∧
    (speedPct (updateBackground isBlowing rand st).backgroundSpeed ≤ 30 →
      (speedometerView (updateBackground isBlowing rand st).backgroundSpeed).2 = "#44ff44") := by
  have hb := stepSpeed_bounds isBlowing h0 h1
  rw [← updateBackground_backgroundSpeed isBlowing rand st] at hb
  obtain ⟨hs0, hs1⟩ := hb
  rw [MAX_SPEED] at hs1
  refine ⟨rfl, ?_, ?_, ?_, ?_, ?_⟩
  · rw [speedPct_eq_floor, Int.floor_eq_iff]
    push_cast
    constructor
    · rintro ⟨-, hlt⟩
      linarith
    · intro hlt
      exact ⟨by linarith, by linarith⟩
  · rw [speedPct_eq_floor, Int.floor_eq_iff]
    push_cast
    constructor
    · rintro ⟨hge, -⟩
      linarith
    · intro hge
      exact ⟨by linarith, by linarith⟩
  · intro h
    rw [speedometerView]
    simp only [if_pos h]
  · rintro ⟨h30, h70⟩
    rw [speedometerView]
    simp only [if_neg (not_lt.mpr h70), if_pos h30]
  · intro h
    have h70 : speedPct (updateBackground isBlowing rand st).backgroundSpeed ≤ 70 :=
      le_trans h (by norm_num)
    rw [speedometerView]
    simp only [if_neg (not_lt.mpr h70), if_neg (not_lt.mpr h)]

/-- The randomness oracle and state used by the concrete witnesses. -/
def wRand : Nat → ℚ × ℚ × ℚ := fun _ => (1, 0, 0)

def wSt : BgState := initBgState wRand

/-- C8 witness: the amended theorem applied to a concrete call from the
post-setup state with blowing true. -/
theorem C8_speedometer_witness :
    (0 : ℚ) ≤ wSt.backgroundSpeed ∧ wSt.backgroundSpeed ≤ MAX_SPEED ∧
    ((speedometerView (updateBackground true wRand wSt).backgroundSpeed).1 =
        "Speed: " ++
          toString (speedPct (updateBackground true wRand wSt).backgroundSpeed) ++ "%" ∧
      (speedPct (updateBackground true wRand wSt).backgroundSpeed = 0 ↔
        (updateBackground true wRand wSt).backgroundSpeed < 1/400) ∧
      (speedPct (updateBackground true wRand wSt).backgroundSpeed = 100 ↔
        199/400 ≤ (updateBackground true wRand wSt).backgroundSpeed) ∧
      (70 < speedPct (updateBackground true wRand wSt).backgroundSpeed →
        (speedometerView (updateBackground true wRand wSt).backgroundSpeed).2 = "#ff4444") ∧
      (30 < speedPct (updateBackground true wRand wSt).backgroundSpeed ∧
          speedPct (updateBackground true wRand wSt).backgroundSpeed ≤ 70 →
        (speedometerView (updateBackground true wRand wSt).backgroundSpeed).2 = "#ffaa44") ∧
      (speedPct (updateBackground true wRand wSt).backgroundSpeed ≤ 30 →
        (speedometerView (updateBackground true wRand wSt).backgroundSpeed).2 = "#44ff44")) :=
  ⟨le_refl 0, by norm_num [wSt, initBgState, MAX_SPEED],
    C8_speedometer true wRand wSt (le_refl 0)
      (by norm_num [wSt, initBgState, MAX_SPEED])⟩

end PulseDemo
